import Mathlib

set_option autoImplicit false

/-!
Shallow embedding of the loan / loan-payment API server (file
`src/server/app.py`): the in-memory record store (the `loans` and
`loan_payments` lists), the GraphQL mutations `CreateLoan.mutate` and
`CreateLoanPayment.mutate`, the relationship resolver
`ExistingLoans.resolve_payments`, and the REST endpoint
`create_loan_payment` (`POST /loan-payments`), including its JSON body
validation, Python `int(...)` coercion and `strptime(s, "%Y-%m-%d")`
date parsing.
-/

/-- A calendar date as produced by `datetime.date(year, month, day)`. -/
structure PyDate where
  year : Nat
  month : Nat
  day : Nat
deriving DecidableEq, Repr

/-- Gregorian leap-year rule used by `datetime.date` validation. -/
def isLeap (y : Nat) : Bool :=
  y % 4 == 0 && (y % 100 != 0 || y % 400 == 0)

/-- Days in a month, as `datetime.date` validates the day field. -/
def daysInMonth (y m : Nat) : Nat :=
  if m == 2 then (if isLeap y then 29 else 28)
  else if m == 4 || m == 6 || m == 9 || m == 11 then 30
  else 31

/-- The validity check `datetime.date(y, m, d)` performs (MINYEAR = 1,
MAXYEAR = 9999). -/
def validDate (y m d : Nat) : Bool :=
  1 ≤ y && y ≤ 9999 && 1 ≤ m && m ≤ 12 && 1 ≤ d && d ≤ daysInMonth y m

/-- Value of a nonempty all-digit character run, accumulator form. -/
def decDigitsAux : List Char → Nat → Option Nat
  | [], acc => some acc
  | c :: rest, acc =>
    if c.isDigit then decDigitsAux rest (acc * 10 + (c.toNat - '0'.toNat))
    else none

/-- Decimal value of a character run: `some` exactly when it is nonempty
and all digits (the `\d+` of a regex, the digit run Python `int(str)`
accepts after the sign). -/
def decDigits? (cs : List Char) : Option Nat :=
  match cs with
  | [] => none
  | _ :: _ => decDigitsAux cs 0

/-- Split a character run at every dash, keeping empty pieces (the shape
`str.split("-")` produces). -/
def splitDash : List Char → List (List Char)
  | [] => [[]]
  | c :: rest =>
    if c = '-' then [] :: splitDash rest
    else
      match splitDash rest with
      | [] => [[c]]
      | p :: ps => (c :: p) :: ps

/-- `datetime.datetime.strptime(s, "%Y-%m-%d").date()`: the `%Y` directive
matches exactly 4 digits, `%m` matches 1 or 2 digits valued 1..12, `%d`
matches 1 or 2 digits valued 1..31, the whole string must be consumed, and
`date()` then validates the calendar day. Returns `none` where Python
raises `ValueError`. -/
def pyStrptimeDate (s : String) : Option PyDate :=
  match splitDash s.data with
  | [ys, ms, ds] =>
    match decDigits? ys, decDigits? ms, decDigits? ds with
    | some y, some m, some d =>
      if ys.length = 4 ∧ (ms.length = 1 ∨ ms.length = 2)
          ∧ (ds.length = 1 ∨ ds.length = 2)
          ∧ 1 ≤ m ∧ m ≤ 12 ∧ 1 ≤ d ∧ d ≤ 31
          ∧ validDate y m d = true
      then some ⟨y, m, d⟩ else none
    | _, _, _ => none
  | _ => none

/-- Left-pad the decimal form of `n` with zeros to width `w`. -/
def padZeros (w : Nat) (n : Nat) : String :=
  let s := toString n
  (List.replicate (w - s.length) '0').asString ++ s

/-- `datetime.date.isoformat`: zero-padded `YYYY-MM-DD`. -/
def pyDateIso (d : PyDate) : String :=
  padZeros 4 d.year ++ "-" ++ padZeros 2 d.month ++ "-" ++ padZeros 2 d.day

/-- A JSON value as `request.get_json()` delivers it: JSON integers arrive
as Python `int`, JSON decimal numbers as `float` (modelled exactly by a
rational: every value relevant here is reproduced exactly), strings,
booleans and null. -/
inductive JsonVal where
  | jInt (n : Int)
  | jFloat (q : Rat)
  | jStr (s : String)
  | jBool (b : Bool)
  | jNull
deriving DecidableEq, Repr

/-- Truncation toward zero, the behaviour of Python `int(float)`. -/
def ratTrunc (q : Rat) : Int :=
  Int.tdiv q.num (q.den : Int)

/-- Strip whitespace from both ends of a character run (`str.strip()`,
as `int(str)` applies it). -/
def pyStrip (cs : List Char) : List Char :=
  ((cs.dropWhile Char.isWhitespace).reverse.dropWhile Char.isWhitespace).reverse

/-- Python `int(str)`: surrounding whitespace is stripped, an optional
sign precedes a nonempty run of decimal digits; anything else raises
`ValueError` (`none`). -/
def pyIntOfString (s : String) : Option Int :=
  match pyStrip s.data with
  | '-' :: rest => (decDigits? rest).map (fun n => -(n : Int))
  | '+' :: rest => (decDigits? rest).map (fun n => (n : Int))
  | t => (decDigits? t).map (fun n => (n : Int))

/-- Python `int(x)` on a JSON value: identity on ints, truncation on
floats, decimal parse on strings, 0/1 on booleans, and `TypeError`
(`none`) on null. -/
def pyInt : JsonVal → Option Int
  | .jInt n => some n
  | .jFloat q => some (ratTrunc q)
  | .jStr s => pyIntOfString s
  | .jBool b => some (if b then 1 else 0)
  | .jNull => none

/-- A loan record, the dict shape stored in the `loans` list. -/
structure Loan where
  id : Int
  name : String
  interest_rate : Rat
  principal : Int
  due_date : PyDate
deriving DecidableEq, Repr

/-- A payment record, the dict shape stored in the `loan_payments` list. -/
structure Payment where
  id : Int
  loan_id : Int
  payment_date : PyDate
deriving DecidableEq, Repr

/-- The process-wide store: the module-level `loans` and `loan_payments`
lists. -/
structure State where
  loans : List Loan
  payments : List Payment
deriving DecidableEq, Repr

def State.loanIds (s : State) : List Int :=
  s.loans.map Loan.id

def State.paymentIds (s : State) : List Int :=
  s.payments.map Payment.id

/-- `max([... ids ...], default=0) + 1`: the id-generation step shared by
both mutations and the REST endpoint. -/
def nextId (ids : List Int) : Int :=
  (ids.max?).getD 0 + 1

/-- The module-level seed data of `app.py` (lines 13-48). -/
def initialState : State :=
  { loans :=
      [ ⟨1, "Tom's Loan", mkRat 5 1, 10000, ⟨2025, 3, 1⟩⟩,
        ⟨2, "Chris Wailaka", mkRat 7 2, 500000, ⟨2025, 3, 1⟩⟩,
        ⟨3, "NP Mobile Money", mkRat 9 2, 30000, ⟨2025, 3, 1⟩⟩,
        ⟨4, "Esther's Autoparts", mkRat 3 2, 40000, ⟨2025, 3, 1⟩⟩ ],
    payments :=
      [ ⟨1, 1, ⟨2024, 3, 4⟩⟩,
        ⟨2, 2, ⟨2024, 3, 15⟩⟩,
        ⟨3, 3, ⟨2024, 4, 5⟩⟩ ] }

/-- `any(loan.get("id") == loan_id for loan in loans)`. -/
def loanExists (s : State) (lid : Int) : Bool :=
  s.loans.any (fun l => l.id == lid)

/-- Input to the `createLoan` mutation: all four fields are declared
`required=True` in `CreateLoanInput`, so `mutate` always receives them. -/
structure CreateLoanInput where
  name : String
  interest_rate : Rat
  principal : Int
  due_date : PyDate
deriving DecidableEq, Repr

/-- `CreateLoan.mutate`: generate `max(ids, default=0) + 1`, append,
return the stored record. No validation is performed in the mutation
body itself. -/
def createLoan (s : State) (input : CreateLoanInput) : State × Loan :=
  let new_id := nextId s.loanIds
  let new_loan : Loan :=
    ⟨new_id, input.name, input.interest_rate, input.principal, input.due_date⟩
  ({ s with loans := s.loans ++ [new_loan] }, new_loan)

/-- Run a sequence of `createLoan` mutations, collecting the assigned
ids in order. -/
def runCreateLoans (s : State) : List CreateLoanInput → State × List Int
  | [] => (s, [])
  | i :: rest =>
    let step := createLoan s i
    let tail := runCreateLoans step.1 rest
    (tail.1, step.2.id :: tail.2)

/-- Outcome of the `CreateLoanPayment.mutate` GraphQL mutation: the
created payment, or the raised `Exception` for a missing loan, which
carries the offending id in its message. -/
inductive GraphPayResult where
  | ok (p : Payment)
  | loanNotFound (id : Int)
deriving DecidableEq, Repr

/-- `CreateLoanPayment.mutate`: raise if no loan has the given id
(before any id generation), else assign `max(ids, default=0) + 1`,
append and return the stored record. -/
def createLoanPaymentMutate (s : State) (lid : Int) (d : PyDate) :
    State × GraphPayResult :=
  if loanExists s lid then
    let new_id := nextId s.paymentIds
    let new_payment : Payment := ⟨new_id, lid, d⟩
    ({ s with payments := s.payments ++ [new_payment] }, .ok new_payment)
  else
    (s, .loanNotFound lid)

/-- `ExistingLoans.resolve_payments`: the payments whose `loan_id` equals
this loan's id, in stored order. -/
def resolvePayments (s : State) (l : Loan) : List Payment :=
  s.payments.filter (fun p => p.loan_id == l.id)

/-- A JSON object body: association list of keys to values (`get_json()`
on a JSON object; keys of a Python dict are unique, lookup takes the
first binding). -/
def JsonObj := List (String × JsonVal)

/-- `data["key"]` / `"key" in data` on the parsed body. -/
def jsonLookup (data : JsonObj) (k : String) : Option JsonVal :=
  (data.find? (fun p => p.1 == k)).map (fun p => p.2)

/-- `strptime` applied to the looked-up `payment_date` value: Python
raises `TypeError` (also caught, line 192) when the value is not a
string. -/
def pyStrptimeJson : JsonVal → Option PyDate
  | .jStr s => pyStrptimeDate s
  | _ => none

/-- The error message of line 187. -/
def notFoundMsg (lid : Int) : String :=
  "Loan with id " ++ toString lid ++ " not found"

/-- What `create_loan_payment` sends back: `jsonify({"error": msg}),
code` for failures, or the 201 payload `{"id", "loan_id",
"payment_date" (isoformat string)}`. -/
inductive RestOutcome where
  | response (status : Nat) (errMsg : String)
  | created (id : Int) (loanId : Int) (paymentDateIso : String)
deriving DecidableEq, Repr

/-- The REST endpoint `create_loan_payment` (`POST /loan-payments`,
lines 158-212). `body = none` models a request whose body is not a JSON
object (`get_json` raising `BadRequest`, or returning `None`). The
validation order is exactly the source's: key `loan_id`, key
`payment_date`, `int(loan_id)` coercion, loan existence, date parse,
then id generation and append. -/
def restCreateLoanPayment (s : State) (body : Option JsonObj) :
    State × RestOutcome :=
  match body with
  | none => (s, .response 400 "Request body must be JSON")
  | some data =>
    match jsonLookup data "loan_id" with
    | none => (s, .response 400 "loan_id is required")
    | some lidVal =>
      match jsonLookup data "payment_date" with
      | none => (s, .response 400 "payment_date is required")
      | some pdVal =>
        match pyInt lidVal with
        | none => (s, .response 400 "loan_id must be an integer")
        | some lid =>
          if loanExists s lid then
            match pyStrptimeJson pdVal with
            | none =>
              (s, .response 400 "payment_date must be in YYYY-MM-DD format")
            | some d =>
              let new_id := nextId s.paymentIds
              let new_payment : Payment := ⟨new_id, lid, d⟩
              ({ s with payments := s.payments ++ [new_payment] },
               .created new_id lid (pyDateIso d))
          else
            (s, .response 404 (notFoundMsg lid))

/-- Does the first run start with the second? -/
def startsWithList : List Char → List Char → Bool
  | _, [] => true
  | [], _ :: _ => false
  | a :: as, b :: bs => a == b && startsWithList as bs

/-- Contiguous-substring test over character runs. -/
def containsList (needle : List Char) : List Char → Bool
  | [] => startsWithList [] needle
  | c :: t => startsWithList (c :: t) needle || containsList needle t

/-- Substring test (`needle in haystack` on Python strings), used to
state what an error message names. -/
def strContains (hay needle : String) : Bool :=
  containsList needle.data hay.data

/-- The exact zero-padded `YYYY-MM-DD` calendar format as the spec's
words describe it (4-2-2 digit groups forming a valid calendar date);
kept separate from `pyStrptimeDate`, the parser the code actually
applies, so the two can be compared. -/
def specExactDateFormat (s : String) : Bool :=
  match splitDash s.data with
  | [ys, ms, ds] =>
    match decDigits? ys, decDigits? ms, decDigits? ds with
    | some y, some m, some d =>
      ys.length == 4 && ms.length == 2 && ds.length == 2 && validDate y m d
    | _, _, _ => false
  | _ => false

/-! ## Helper lemmas -/

theorem foldl_max_ge_init (t : List Int) : ∀ a : Int, a ≤ t.foldl max a := by
  induction t with
  | nil => intro a; simp
  | cons b t ih =>
    intro a
    calc a ≤ max a b := le_max_left a b
    _ ≤ t.foldl max (max a b) := ih (max a b)

theorem foldl_max_ge_mem (t : List Int) :
    ∀ (a x : Int), x ∈ t → x ≤ t.foldl max a := by
  induction t with
  | nil => intro a x hx; cases hx
  | cons b t ih =>
    intro a x hx
    rcases List.mem_cons.mp hx with rfl | hx
    · calc x ≤ max a x := le_max_right a x
      _ ≤ t.foldl max (max a x) := foldl_max_ge_init t (max a x)
    · exact ih (max a b) x hx

theorem mem_le_max_getD {x : Int} {l : List Int} (h : x ∈ l) :
    x ≤ (l.max?).getD 0 := by
  cases l with
  | nil => cases h
  | cons a t =>
    show x ≤ t.foldl max a
    rcases List.mem_cons.mp h with rfl | hx
    · exact foldl_max_ge_init t x
    · exact foldl_max_ge_mem t a x hx

/-- Every id already present is strictly below the id the store assigns
next. -/
theorem mem_lt_nextId {x : Int} {ids : List Int} (h : x ∈ ids) :
    x < nextId ids :=
  lt_of_le_of_lt (mem_le_max_getD h) (lt_add_one _)

theorem createLoan_fst_loanIds (s : State) (i : CreateLoanInput) :
    (createLoan s i).1.loanIds = s.loanIds ++ [(createLoan s i).2.id] := by
  simp [createLoan, State.loanIds]

theorem createLoan_snd_id (s : State) (i : CreateLoanInput) :
    (createLoan s i).2.id = nextId s.loanIds := rfl

/-- Combined specification of a run of loan creations: the final id list
is the old one followed by the assigned ids, the assigned ids are
strictly increasing, and each assigned id exceeds every id present at
the start. -/
theorem runCreateLoans_spec (s : State) (inputs : List CreateLoanInput) :
    (runCreateLoans s inputs).1.loanIds = s.loanIds ++ (runCreateLoans s inputs).2
    ∧ (runCreateLoans s inputs).2.Pairwise (· < ·)
    ∧ ∀ a ∈ (runCreateLoans s inputs).2, ∀ e ∈ s.loanIds, e < a := by
  induction inputs generalizing s with
  | nil => simp [runCreateLoans]
  | cons i rest ih =>
    obtain ⟨ih1, ih2, ih3⟩ := ih (createLoan s i).1
    have hids : (createLoan s i).1.loanIds
        = s.loanIds ++ [(createLoan s i).2.id] := createLoan_fst_loanIds s i
    have hfresh : ∀ e ∈ s.loanIds, e < (createLoan s i).2.id := by
      intro e he
      rw [createLoan_snd_id]
      exact mem_lt_nextId he
    refine ⟨?_, ?_, ?_⟩
    · show (runCreateLoans (createLoan s i).1 rest).1.loanIds
        = s.loanIds ++ ((createLoan s i).2.id :: (runCreateLoans (createLoan s i).1 rest).2)
      rw [ih1, hids, List.append_assoc]
      rfl
    · show ((createLoan s i).2.id :: (runCreateLoans (createLoan s i).1 rest).2).Pairwise (· < ·)
      refine List.Pairwise.cons ?_ ih2
      intro a ha
      exact ih3 a ha (createLoan s i).2.id (by rw [hids]; simp)
    · show ∀ a ∈ ((createLoan s i).2.id :: (runCreateLoans (createLoan s i).1 rest).2),
        ∀ e ∈ s.loanIds, e < a
      intro a ha e he
      rcases List.mem_cons.mp ha with rfl | ha
      · exact hfresh e he
      · exact ih3 a ha e (by rw [hids]; exact List.mem_append_left _ he)

/-- Names of created loans are taken verbatim from the input, so a run
whose inputs all carry non-empty names preserves non-emptiness of every
stored name. -/
theorem runCreateLoans_names (s : State) (inputs : List CreateLoanInput)
    (hs : ∀ l ∈ s.loans, l.name ≠ "") (hi : ∀ i ∈ inputs, i.name ≠ "") :
    ∀ l ∈ (runCreateLoans s inputs).1.loans, l.name ≠ "" := by
  induction inputs generalizing s with
  | nil => exact fun l hl => hs l hl
  | cons i rest ih =>
    refine ih (createLoan s i).1 ?_ (fun j hj => hi j (List.mem_cons_of_mem i hj))
    intro l hl
    simp only [createLoan, List.mem_append, List.mem_singleton] at hl
    rcases hl with hl | rfl
    · exact hs l hl
    · exact hi i (List.mem_cons_self i rest)

theorem startsWithList_append (n y : List Char) :
    startsWithList (n ++ y) n = true := by
  induction n with
  | nil =>
    simp only [List.nil_append]
    cases y <;> rfl
  | cons a as ih => simp [startsWithList, ih]

theorem containsList_append (x n y : List Char) :
    containsList n (x ++ (n ++ y)) = true := by
  induction x with
  | nil =>
    simp only [List.nil_append]
    cases hn : n ++ y with
    | nil =>
      rcases List.append_eq_nil.mp hn with ⟨rfl, rfl⟩
      rfl
    | cons c t =>
      have hs := startsWithList_append n y
      rw [hn] at hs
      simp [containsList, hs]
  | cons c t ih => simp [containsList, ih]

theorem strContains_mid (a b c : String) : strContains (a ++ b ++ c) b = true := by
  simp only [strContains, String.data_append]
  rw [List.append_assoc]
  exact containsList_append a.data b.data c.data

/-- The 404 message literally carries the offending id. -/
theorem notFoundMsg_contains_id (lid : Int) :
    strContains (notFoundMsg lid) (toString lid) = true :=
  strContains_mid "Loan with id " (toString lid) " not found"

/-! ## Claim theorems -/

/-- C1: the id assigned to each new loan equals one plus the maximum id
currently in the Loans collection (1 on an empty collection), every
assigned id exceeds every id already present, the ids assigned over any
sequence of loan creations are strictly increasing (hence unique), and
the same `max + 1` rule governs payment creation over the Payments
collection. -/
theorem loan_payment_id_assignment (s : State) (inputs : List CreateLoanInput)
    (i : CreateLoanInput) (lid : Int) (d : PyDate) :
    (createLoan s i).2.id = nextId s.loanIds
    ∧ (∀ e ∈ s.loanIds, e < (createLoan s i).2.id)
    ∧ ((runCreateLoans s inputs).2.Pairwise (· < ·))
    ∧ (∀ a ∈ (runCreateLoans s inputs).2, ∀ e ∈ s.loanIds, e < a)
    ∧ (loanExists s lid = true →
        (createLoanPaymentMutate s lid d).2 = .ok ⟨nextId s.paymentIds, lid, d⟩
        ∧ ∀ e ∈ s.paymentIds, e < nextId s.paymentIds) := by
  obtain ⟨-, h2, h3⟩ := runCreateLoans_spec s inputs
  refine ⟨createLoan_snd_id s i, ?_, h2, h3, ?_⟩
  · intro e he
    rw [createLoan_snd_id]
    exact mem_lt_nextId he
  · intro hex
    constructor
    · simp [createLoanPaymentMutate, hex]
    · intro e he
      exact mem_lt_nextId he

theorem loan_payment_id_assignment_witness :
    loanExists initialState 2 = true
    ∧ (createLoanPaymentMutate initialState 2 ⟨2025, 5, 5⟩).2
        = .ok ⟨nextId initialState.paymentIds, 2, ⟨2025, 5, 5⟩⟩ :=
  ⟨by decide,
   ((loan_payment_id_assignment initialState []
      ⟨"A", mkRat 1 1, 1, ⟨2025, 1, 1⟩⟩ 2 ⟨2025, 5, 5⟩).2.2.2.2 (by decide)).1⟩

/-- C2: a payment creation whose loan_id matches no loan fails on both
surfaces with a loan-not-found condition carrying the offending id (the
GraphQL mutation raises before any id assignment, the REST endpoint
answers 404 with a message containing the id), and the store — in
particular the Payments collection and its count — is left unchanged. -/
theorem payment_loan_not_found (s : State) (lid : Int) (d : PyDate)
    (body : JsonObj) (lidVal pdVal : JsonVal)
    (hne : loanExists s lid = false)
    (h1 : jsonLookup body "loan_id" = some lidVal)
    (h2 : jsonLookup body "payment_date" = some pdVal)
    (h3 : pyInt lidVal = some lid) :
    createLoanPaymentMutate s lid d = (s, .loanNotFound lid)
    ∧ restCreateLoanPayment s (some body) = (s, .response 404 (notFoundMsg lid))
    ∧ strContains (notFoundMsg lid) (toString lid) = true
    ∧ (restCreateLoanPayment s (some body)).1.payments.length = s.payments.length := by
  have hg : createLoanPaymentMutate s lid d = (s, .loanNotFound lid) := by
    simp [createLoanPaymentMutate, hne]
  have hr : restCreateLoanPayment s (some body) = (s, .response 404 (notFoundMsg lid)) := by
    simp [restCreateLoanPayment, h1, h2, h3, hne]
  exact ⟨hg, hr, notFoundMsg_contains_id lid, by rw [hr]⟩

theorem payment_loan_not_found_witness :
    loanExists initialState 999 = false
    ∧ restCreateLoanPayment initialState
        (some [("loan_id", JsonVal.jInt 999), ("payment_date", JsonVal.jStr "2025-05-05")])
      = (initialState, .response 404 (notFoundMsg 999)) :=
  ⟨by decide,
   (payment_loan_not_found initialState 999 ⟨2025, 5, 5⟩
      [("loan_id", JsonVal.jInt 999), ("payment_date", JsonVal.jStr "2025-05-05")]
      (JsonVal.jInt 999) (JsonVal.jStr "2025-05-05")
      (by decide) (by decide) (by decide) (by decide)).2.1⟩

/-- C3: the payments resolver returns exactly the payments whose loan_id
equals the loan's id, as a subsequence of the Payments collection in
insertion order, and — being a function of the store — modifies neither
collection. -/
theorem resolve_payments_spec (s : State) (l : Loan) :
    (resolvePayments s l).Sublist s.payments
    ∧ ∀ p : Payment, p ∈ resolvePayments s l ↔ p ∈ s.payments ∧ p.loan_id = l.id := by
  refine ⟨List.filter_sublist _, ?_⟩
  intro p
  simp [resolvePayments, List.mem_filter]

/-- C4: on any payment-creation input passing the REST protocol checks
(object body holding both keys, integer-coercible loan_id, a string
payment_date parsing under the date format), the REST endpoint and the
GraphQL mutation apply the same business rule: the resulting store
states are equal, and either both create the identical payment record
(same id, loan_id, payment_date) or both fail with loan-not-found. -/
theorem rest_graph_equivalent (s : State) (body : JsonObj)
    (lidVal : JsonVal) (lid : Int) (ds : String) (d : PyDate)
    (h1 : jsonLookup body "loan_id" = some lidVal)
    (h2 : jsonLookup body "payment_date" = some (JsonVal.jStr ds))
    (h3 : pyInt lidVal = some lid)
    (h4 : pyStrptimeDate ds = some d) :
    (restCreateLoanPayment s (some body)).1 = (createLoanPaymentMutate s lid d).1
    ∧ (loanExists s lid = true →
        restCreateLoanPayment s (some body)
          = ({ s with payments := s.payments ++ [⟨nextId s.paymentIds, lid, d⟩] },
             .created (nextId s.paymentIds) lid (pyDateIso d))
        ∧ createLoanPaymentMutate s lid d
          = ({ s with payments := s.payments ++ [⟨nextId s.paymentIds, lid, d⟩] },
             .ok ⟨nextId s.paymentIds, lid, d⟩))
    ∧ (loanExists s lid = false →
        restCreateLoanPayment s (some body) = (s, .response 404 (notFoundMsg lid))
        ∧ createLoanPaymentMutate s lid d = (s, .loanNotFound lid)) := by
  have hps : pyStrptimeJson (JsonVal.jStr ds) = some d := h4
  refine ⟨?_, ?_, ?_⟩
  · cases hex : loanExists s lid <;>
      simp [restCreateLoanPayment, createLoanPaymentMutate, h1, h2, h3, hps, hex]
  · intro hex
    constructor <;>
      simp [restCreateLoanPayment, createLoanPaymentMutate, h1, h2, h3, hps, hex]
  · intro hex
    constructor <;>
      simp [restCreateLoanPayment, createLoanPaymentMutate, h1, h2, h3, hps, hex]

theorem rest_graph_equivalent_witness :
    loanExists initialState 2 = true
    ∧ restCreateLoanPayment initialState
        (some [("loan_id", JsonVal.jStr "2"), ("payment_date", JsonVal.jStr "2025-05-05")])
      = ({ initialState with
            payments := initialState.payments
              ++ [⟨nextId initialState.paymentIds, 2, ⟨2025, 5, 5⟩⟩] },
         .created (nextId initialState.paymentIds) 2 (pyDateIso ⟨2025, 5, 5⟩)) :=
  ⟨by decide,
   ((rest_graph_equivalent initialState
      [("loan_id", JsonVal.jStr "2"), ("payment_date", JsonVal.jStr "2025-05-05")]
      (JsonVal.jStr "2") 2 "2025-05-05" ⟨2025, 5, 5⟩
      (by decide) (by decide) (by decide) (by decide)).2.1 (by decide)).1⟩

/-- C5 counterexample: a REST payment request missing both loan_id and
payment_date is answered naming only loan_id — the message neither
mentions payment_date nor any second field name — refuting the claim
that every omitted field is named. The store is untouched. -/
theorem rest_missing_fields_counterexample :
    restCreateLoanPayment initialState (some [])
      = (initialState, .response 400 "loan_id is required")
    ∧ strContains "loan_id is required" "payment_date" = false := by
  constructor
  · rfl
  · decide

/-- C5 (amended): each REST creation failure for an omitted field names
only the first missing field, loan_id checked before payment_date, and
is surfaced before any store mutation; a request missing both fields is
answered naming loan_id alone. -/
theorem rest_first_missing_field (s : State) (body : JsonObj) (v : JsonVal) :
    (jsonLookup body "loan_id" = none →
      restCreateLoanPayment s (some body) = (s, .response 400 "loan_id is required"))
    ∧ (jsonLookup body "loan_id" = some v → jsonLookup body "payment_date" = none →
      restCreateLoanPayment s (some body) = (s, .response 400 "payment_date is required")) := by
  constructor
  · intro h
    simp [restCreateLoanPayment, h]
  · intro h1 h2
    simp [restCreateLoanPayment, h1, h2]

theorem rest_first_missing_field_witness :
    restCreateLoanPayment initialState (some [("loan_id", JsonVal.jInt 1)])
      = (initialState, .response 400 "payment_date is required") :=
  (rest_first_missing_field initialState [("loan_id", JsonVal.jInt 1)]
    (JsonVal.jInt 1)).2 (by decide) (by decide)

/-- C6: a REST request with loan_id given as the string "2" and
payment_date "2025-05-05", against a store where loan 2 exists, creates
a payment with a freshly generated id, echoes loan_id as the integer 2
and the date as the ISO string "2025-05-05" (the 201 payload), and
appends exactly that payment to the Payments collection. -/
theorem rest_create_payment_scenario (s : State) (h : loanExists s 2 = true) :
    restCreateLoanPayment s
        (some [("loan_id", JsonVal.jStr "2"), ("payment_date", JsonVal.jStr "2025-05-05")])
      = ({ s with payments := s.payments ++ [⟨nextId s.paymentIds, 2, ⟨2025, 5, 5⟩⟩] },
         .created (nextId s.paymentIds) 2 "2025-05-05") := by
  have e1 : jsonLookup [("loan_id", JsonVal.jStr "2"), ("payment_date", JsonVal.jStr "2025-05-05")]
      "loan_id" = some (JsonVal.jStr "2") := by decide
  have e2 : jsonLookup [("loan_id", JsonVal.jStr "2"), ("payment_date", JsonVal.jStr "2025-05-05")]
      "payment_date" = some (JsonVal.jStr "2025-05-05") := by decide
  have e3 : pyInt (JsonVal.jStr "2") = some 2 := by decide
  have e4 : pyStrptimeJson (JsonVal.jStr "2025-05-05") = some ⟨2025, 5, 5⟩ := by decide
  have e5 : pyDateIso ⟨2025, 5, 5⟩ = "2025-05-05" := by decide
  simp [restCreateLoanPayment, e1, e2, e3, e4, e5, h]

theorem rest_create_payment_scenario_witness :
    loanExists initialState 2 = true
    ∧ restCreateLoanPayment initialState
        (some [("loan_id", JsonVal.jStr "2"), ("payment_date", JsonVal.jStr "2025-05-05")])
      = ({ initialState with
            payments := initialState.payments
              ++ [⟨nextId initialState.paymentIds, 2, ⟨2025, 5, 5⟩⟩] },
         .created (nextId initialState.paymentIds) 2 "2025-05-05") :=
  ⟨by decide, rest_create_payment_scenario initialState (by decide)⟩

/-- C7 counterexample: the date string "2025-5-5" is not in the exact
zero-padded YYYY-MM-DD format, yet a REST request carrying it for the
existing loan 2 is answered with a created payment (HTTP 201), the
single-digit fields parsed as May 5, and the Payments collection grows —
refuting the claim that every such request fails with 400 and leaves
Payments unchanged. -/
theorem date_format_counterexample :
    loanExists initialState 2 = true
    ∧ specExactDateFormat "2025-5-5" = false
    ∧ (restCreateLoanPayment initialState
        (some [("loan_id", JsonVal.jInt 2), ("payment_date", JsonVal.jStr "2025-5-5")])).2
      = .created 4 2 "2025-05-05"
    ∧ (restCreateLoanPayment initialState
        (some [("loan_id", JsonVal.jInt 2), ("payment_date", JsonVal.jStr "2025-5-5")])).1.payments.length
      = initialState.payments.length + 1 := by
  refine ⟨by decide, by decide, ?_, ?_⟩ <;> rfl

/-- C7 (amended): a REST request whose loan_id references an existing
loan but whose payment_date does not parse under the code's
`%Y-%m-%d` parser (exactly 4 year digits, 1- or 2-digit month and day
forming a valid calendar date — a strictly wider format than exact
zero-padded YYYY-MM-DD) fails with HTTP 400 and leaves the store, in
particular the Payments collection, unchanged. -/
theorem rest_invalid_date_format (s : State) (body : JsonObj)
    (lidVal pdVal : JsonVal) (lid : Int)
    (h1 : jsonLookup body "loan_id" = some lidVal)
    (h2 : jsonLookup body "payment_date" = some pdVal)
    (h3 : pyInt lidVal = some lid)
    (h4 : loanExists s lid = true)
    (h5 : pyStrptimeJson pdVal = none) :
    restCreateLoanPayment s (some body)
      = (s, .response 400 "payment_date must be in YYYY-MM-DD format") := by
  simp [restCreateLoanPayment, h1, h2, h3, h4, h5]

theorem rest_invalid_date_format_witness :
    loanExists initialState 2 = true
    ∧ restCreateLoanPayment initialState
        (some [("loan_id", JsonVal.jInt 2), ("payment_date", JsonVal.jStr "2025-13-01")])
      = (initialState, .response 400 "payment_date must be in YYYY-MM-DD format") :=
  ⟨by decide,
   rest_invalid_date_format initialState
     [("loan_id", JsonVal.jInt 2), ("payment_date", JsonVal.jStr "2025-13-01")]
     (JsonVal.jInt 2) (JsonVal.jStr "2025-13-01") 2
     (by decide) (by decide) (by decide) (by decide) (by decide)⟩

/-- C8 counterexample: loan creation performs no non-emptiness check on
the name — creating a loan with the empty string as name stores a loan
whose name is empty, refuting the claimed invariant. -/
theorem empty_name_counterexample :
    (createLoan initialState ⟨"", mkRat 4 1, 25000, ⟨2025, 6, 1⟩⟩).2.name = ""
    ∧ ((createLoan initialState ⟨"", mkRat 4 1, 25000, ⟨2025, 6, 1⟩⟩).1.loans.any
        (fun l => l.name == "")) = true := by
  constructor
  · rfl
  · decide

/-- C8 (amended): loan creation stores the input name verbatim, with no
non-emptiness check; the every-name-non-empty invariant holds exactly
for stores reached from the seeded initial store by creation sequences
whose inputs all carry non-empty names. -/
theorem loan_names_nonempty (inputs : List CreateLoanInput)
    (h : ∀ i ∈ inputs, i.name ≠ "") :
    (∀ (s : State) (i : CreateLoanInput), (createLoan s i).2.name = i.name)
    ∧ ∀ l ∈ (runCreateLoans initialState inputs).1.loans, l.name ≠ "" :=
  ⟨fun _ _ => rfl, runCreateLoans_names initialState inputs (by decide) h⟩

theorem loan_names_nonempty_witness :
    (∀ i ∈ [(⟨"New Test Loan", mkRat 4 1, 25000, ⟨2025, 6, 1⟩⟩ : CreateLoanInput)],
      i.name ≠ "")
    ∧ ∀ l ∈ (runCreateLoans initialState
        [⟨"New Test Loan", mkRat 4 1, 25000, ⟨2025, 6, 1⟩⟩]).1.loans, l.name ≠ "" :=
  ⟨by decide,
   (loan_names_nonempty [⟨"New Test Loan", mkRat 4 1, 25000, ⟨2025, 6, 1⟩⟩]
     (by decide)).2⟩

/-- C9: the REST endpoint's `int(...)` coercion truncates non-integer
numbers instead of rejecting them: with loan 2 existing, a body whose
loan_id is the JSON number 2.9 yields a created payment (HTTP 201) with
loan_id 2, not a 400 type error. -/
theorem rest_float_truncation :
    pyInt (JsonVal.jFloat (mkRat 29 10)) = some 2
    ∧ restCreateLoanPayment initialState
        (some [("loan_id", JsonVal.jFloat (mkRat 29 10)),
               ("payment_date", JsonVal.jStr "2025-05-05")])
      = ({ initialState with
            payments := initialState.payments ++ [⟨4, 2, ⟨2025, 5, 5⟩⟩] },
         .created 4 2 "2025-05-05") := by
  constructor
  · decide
  · rfl

/-- C10: the REST endpoint checks loan existence before validating the
date format — a request whose coerced loan_id matches no loan and whose
payment_date is also malformed is answered 404 with the loan-not-found
error, never 400 for the bad date, and the store is unchanged. -/
theorem existence_checked_before_date (s : State) (body : JsonObj)
    (lidVal pdVal : JsonVal) (lid : Int)
    (h1 : jsonLookup body "loan_id" = some lidVal)
    (h2 : jsonLookup body "payment_date" = some pdVal)
    (h3 : pyInt lidVal = some lid)
    (h4 : loanExists s lid = false)
    (h5 : pyStrptimeJson pdVal = none) :
    restCreateLoanPayment s (some body) = (s, .response 404 (notFoundMsg lid)) := by
  simp [restCreateLoanPayment, h1, h2, h3, h4]

theorem existence_checked_before_date_witness :
    loanExists initialState 999 = false
    ∧ pyStrptimeJson (JsonVal.jStr "not-a-date") = none
    ∧ restCreateLoanPayment initialState
        (some [("loan_id", JsonVal.jStr "999"), ("payment_date", JsonVal.jStr "not-a-date")])
      = (initialState, .response 404 (notFoundMsg 999)) :=
  ⟨by decide, by decide,
   existence_checked_before_date initialState
     [("loan_id", JsonVal.jStr "999"), ("payment_date", JsonVal.jStr "not-a-date")]
     (JsonVal.jStr "999") (JsonVal.jStr "not-a-date") 999
     (by decide) (by decide) (by decide) (by decide) (by decide)⟩
